import Mathlib

/-!
Verification development for the CIRM data-portal merge/versioning core.

The definitions below are a shallow embedding of the TypeScript source:
  * record schemas        — src/src/types/index.ts
  * sheet classification  — parseExcelFile (src/unnamed/part_007, hook useCIRMData)
                            and detectSheetType (src/unnamed/part_003,
                            DataManagementSection)
  * row parsing           — parseExcelFile (part_007) and processEditorFile
                            (part_003)
  * ActiveGrant merge     — importData (part_007) and handleApplyChanges
                            (part_003); JS `Map` is embedded as an
                            insertion-ordered association list with
                            set-in-place semantics, which is exactly the
                            observable behaviour of `Map.set` / `Map.values`
  * change log            — recordChange / importData / updateData (part_007)
  * rollback              — modelled from the spec (see its doc comment)

JS numbers that hold counts and currency amounts are embedded as `Int`
(the data never needs fractions and no overflow is observable at these
magnitudes); JS `undefined`/`null` fields are embedded as `Option`.
-/

namespace CIRM

/-! ## Record schemas (src/src/types/index.ts) -/

/-- Aggregate funding-category record (`Grant` in types/index.ts). -/
structure Grant where
  id : Int
  programType : String
  grantType : String
  icocApproval : String
  totalAwards : Int
  awardValue : Int
  awardStatus : String
  notes : Option String
  isNew : Bool
deriving DecidableEq, Repr

/-- A single funded project (`ActiveGrant` in types/index.ts).  Optional TS
fields are `Option`; the boolean display flags are always materialised by the
parsers, so they are plain `Bool` here. -/
structure ActiveGrant where
  grantNumber : String
  programType : String
  grantType : String
  grantTitle : String
  diseaseFocus : Option String
  principalInvestigator : String
  awardValue : Int
  icocApproval : Option String
  awardStatus : String
  sortOrder : Option Int
  isNew : Bool
  previousAwardValue : Option Int
  previousAwardStatus : Option String
  showValueChange : Bool
  showStatusChange : Bool
  detailUrl : Option String
deriving DecidableEq, Repr

/-- Publication record (`Paper` in types/index.ts; `manualUpdateDate` is the
extra column read by the editor parser in part_003). -/
structure Paper where
  title : String
  researchTopic : String
  authors : String
  publication : String
  publishedOnline : Option String
  grantNumber : String
  grantNumbers : List String
  grantType : String
  programType : String
  grantTitle : String
  awardStatus : String
  manualUpdateDate : Option String
deriving DecidableEq, Repr

/-- `ProgramStat` in types/index.ts. -/
structure ProgramStat where
  count : Int
  amount : Int
  projects : Int
deriving DecidableEq, Repr

/-- `YearlyStat` in types/index.ts. -/
structure YearlyStat where
  amount : Int
  count : Int
deriving DecidableEq, Repr

/-- `DataSummary` in types/index.ts. -/
structure DataSummary where
  totalGrants : Int
  totalProjects : Int
  totalAmount : Int
  activeProjects : Int
  totalPapers : Int
  activeGrants : Int
deriving DecidableEq, Repr

/-- Inner paper reference of `GrantPaperInfo` in types/index.ts. -/
structure PaperRef where
  title : String
  publishedOnline : String
  publication : String
deriving DecidableEq, Repr

/-- `GrantPaperInfo` in types/index.ts. -/
structure GrantPaperInfo where
  grantNumber : String
  paperCount : Int
  papers : List PaperRef
deriving DecidableEq, Repr

/-- `GrantCooccurrence` in types/index.ts. -/
structure GrantCooccurrence where
  grant1 : String
  grant2 : String
  count : Int
deriving DecidableEq, Repr

/-- `TopGrantPaper` in types/index.ts. -/
structure TopGrantPaper where
  grantNumber : String
  paperCount : Int
  programType : String
deriving DecidableEq, Repr

/-- `VisualizationData` in types/index.ts; the TS `Record<string, _>` maps
are embedded as association lists. -/
structure VisualizationData where
  updateDate : String
  programGrantPapers : List (String × List GrantPaperInfo)
  grantCooccurrence : List GrantCooccurrence
  topGrantsByPaperCount : List TopGrantPaper
deriving DecidableEq, Repr

/-- The full persisted aggregate (`CIRMData` in types/index.ts). -/
structure CIRMData where
  summary : DataSummary
  updateDate : String
  grants : List Grant
  activeGrants : List ActiveGrant
  papers : List Paper
  programStats : List (String × ProgramStat)
  yearlyStats : List (String × YearlyStat)
  visualization : VisualizationData
deriving DecidableEq, Repr

/-- `Partial<CIRMData>` as produced by the importer and consumed by the merge
paths: each field is `none` when the corresponding key is absent
(JS `undefined`).  Note that an empty array is `some []`, which is truthy in
JS, unlike `none`. -/
structure PartialCIRM where
  summary : Option DataSummary := none
  updateDate : Option String := none
  grants : Option (List Grant) := none
  activeGrants : Option (List ActiveGrant) := none
  papers : Option (List Paper) := none
  programStats : Option (List (String × ProgramStat)) := none
  yearlyStats : Option (List (String × YearlyStat)) := none
  visualization : Option VisualizationData := none
deriving DecidableEq, Repr

/-- The optional full pre-change snapshot of a `DataChange`
(types/index.ts, `snapshot` field). -/
structure Snapshot where
  grants : List Grant
  activeGrants : List ActiveGrant
  papers : List Paper
  summary : DataSummary
deriving DecidableEq, Repr

/-- Values appearing in the `old`/`new` pairs of a change entry.  The source
stores arbitrary JSON there; the two shapes actually produced by
`importData` and `updateData` (part_007) are `null` and a two-field count
object, embedded here as `vnull` and `vcounts`. -/
inductive ChangeVal where
  | vnull : ChangeVal
  | vnum : Int → ChangeVal
  | vcounts : Int → Int → ChangeVal
deriving DecidableEq, Repr

/-- A change descriptor as passed to `recordChange`
(`Omit<DataChange, 'id' | 'timestamp'>` in part_007). -/
structure ChangeDesc where
  type : String
  entityType : String
  entityId : String
  changes : List (String × ChangeVal × ChangeVal)
  snapshot : Option Snapshot := none
deriving DecidableEq, Repr

/-- An audit entry (`DataChange` in types/index.ts).  The ISO timestamp
string is derived injectively from the clock reading, so it is embedded as
the millisecond reading itself. -/
structure DataChange where
  id : String
  type : String
  entityType : String
  entityId : String
  changes : List (String × ChangeVal × ChangeVal)
  timestamp : Nat
  snapshot : Option Snapshot
deriving DecidableEq, Repr

/-! ## Sheet classification

`parseExcelFile` (part_007, lines 130-206) classifies each sheet with an
if/else chain on the lowercased sheet name; `detectSheetType` (part_003,
lines 116-128) is the editor's classifier with a different chain. -/

/-- Result of classifying one sheet by its name. -/
inductive SheetType where
  | grants : SheetType
  | activeGrants : SheetType
  | papers : SheetType
  | unknown : SheetType
deriving DecidableEq, Repr

/-- JS `String.prototype.toLowerCase` restricted to the characters that occur
in sheet names (ASCII letters and CJK, on which it agrees with
`Char.toLower`); strings are handled as their character lists. -/
def strLower (s : String) : List Char := s.toList.map Char.toLower

/-- `pat` starts `l` (helper for substring containment). -/
def isPrefixL : List Char → List Char → Bool
  | [], _ => true
  | _ :: _, [] => false
  | a :: as, b :: bs => a == b && isPrefixL as bs

/-- Helper for `strContainsSub`: does `pat` occur inside `l`? -/
def containsL (l pat : List Char) : Bool :=
  if isPrefixL pat l then true
  else match l with
    | [] => false
    | _ :: rest => containsL rest pat

/-- JS `String.prototype.includes` on a lowered name: substring containment. -/
def strContainsSub (s : List Char) (pat : String) : Bool := containsL s pat.toList

/-- Sheet classification of the import path: the if/else chain of
`parseExcelFile` (part_007, lines 137-206).  The `grant`/`资助` test comes
first, before the `active` test. -/
def classifyImportSheet (name : String) : SheetType :=
  let lower := strLower name
  if strContainsSub lower "grant" || strContainsSub lower "资助" then .grants
  else if strContainsSub lower "active" || strContainsSub lower "进行中" ||
      strContainsSub lower "项目" then .activeGrants
  else if strContainsSub lower "paper" || strContainsSub lower "文献" ||
      strContainsSub lower "论文" then .papers
  else .unknown

/-- Sheet classification of the editor path: `detectSheetType` (part_003,
lines 116-128).  Here the `active` test comes first, the `grant` test
excludes `active`, and the vocabulary differs (`具体项目`, `publication`,
no `资助`). -/
def detectSheetType (name : String) : SheetType :=
  let lower := strLower name
  if strContainsSub lower "active" || strContainsSub lower "进行中" ||
      strContainsSub lower "具体项目" then .activeGrants
  else if strContainsSub lower "grant" && !strContainsSub lower "active" then .grants
  else if strContainsSub lower "paper" || strContainsSub lower "文献" ||
      strContainsSub lower "论文" || strContainsSub lower "publication" then .papers
  else .unknown

/-! ## Cells and row parsing

`XLSX.utils.sheet_to_json(ws, { header: 1 })` yields rows of typed cells:
text cells as strings, numeric cells as numbers, absent cells as
`undefined`.  A row is a list of optional cells; reading past the end of the
row is JS `undefined`, i.e. `none`. -/

/-- One spreadsheet cell: a text cell or a numeric cell.  A numeric string in
a text cell coerces to `0` under JS `Number(...) || 0`; that corner is out of
scope, the embedding treats text cells as non-numeric. -/
inductive Cell where
  | s : String → Cell
  | n : Int → Cell
deriving DecidableEq, Repr

/-- A parsed sheet row (already past the header row). -/
abbrev Row := List (Option Cell)

/-- JS `row[i]`: `undefined` past the end of the row. -/
def getCell (r : Row) (i : Nat) : Option Cell := (r.getD i none)

/-- JS `String(x)` on a cell value. -/
def jsStringRaw : Cell → String
  | .s v => v
  | .n v => toString v

/-- JS `String(x || d)`: falsy cells (`undefined`, `''`, `0`) fall back to the
default `d`. -/
def cellStrD (c : Option Cell) (d : String) : String :=
  match c with
  | none => d
  | some (.s v) => if v = "" then d else v
  | some (.n v) => if v = 0 then d else toString v

/-- JS `String(x || '')`. -/
def cellStr (c : Option Cell) : String := cellStrD c ""

/-- JS `Number(x) || 0`: `undefined` and non-numeric text give `NaN`, which
`|| 0` turns into `0`. -/
def cellNum (c : Option Cell) : Int :=
  match c with
  | none => 0
  | some (.s _) => 0
  | some (.n v) => v

/-- JS `x ? String(x) : null`. -/
def cellOptStr (c : Option Cell) : Option String :=
  match c with
  | none => none
  | some (.s v) => if v = "" then none else some v
  | some (.n v) => if v = 0 then none else some (toString v)

/-- JS `x !== undefined ? Number(x) : undefined` (the `sortOrder` column). -/
def cellOptNum (c : Option Cell) : Option Int :=
  match c with
  | none => none
  | some cc => some (cellNum (some cc))

/-- JS `x !== undefined ? String(x).toUpperCase() === 'TRUE' : d` (the
boolean display columns). -/
def cellFlag (c : Option Cell) (d : Bool) : Bool :=
  match c with
  | none => d
  | some cc => (jsStringRaw cc).toList.map Char.toUpper == "TRUE".toList

/-- JS `x !== undefined && x !== '' ? Number(x) : null` (the editor's
`previousAwardValue` column). -/
def cellPrevNum (c : Option Cell) : Option Int :=
  match c with
  | none => none
  | some (.s v) => if v = "" then none else some (cellNum (some (.s v)))
  | some (.n v) => some v

/-- JS `x !== undefined && x !== '' ? String(x) : null` (the editor's
`previousAwardStatus` column). -/
def cellPrevStr (c : Option Cell) : Option String :=
  match c with
  | none => none
  | some (.s v) => if v = "" then none else some v
  | some (.n v) => some (toString v)

/-! ### The grant-number pattern

`grantNumber.match(/[A-Z]+\d+[A-Z]?-?[\dA-Z]*\/g)`: a maximal run of
uppercase letters, then digits, an optional uppercase letter, an optional
hyphen and trailing digits/uppercase.  The character classes of consecutive
pieces are disjoint, so greedy matching without backtracking is exact. -/

/-- Uppercase ASCII letter test (`[A-Z]`). -/
def isUpperAZ (c : Char) : Bool := 'A' ≤ c && c ≤ 'Z'

/-- Match the grant-number pattern at the head of `l`; on success return the
match and the rest of the input. -/
def matchGrantNumAt (l : List Char) : Option (List Char × List Char) :=
  let us := l.takeWhile isUpperAZ
  let r1 := l.dropWhile isUpperAZ
  if us.isEmpty then none
  else
    let ds := r1.takeWhile Char.isDigit
    let r2 := r1.dropWhile Char.isDigit
    if ds.isEmpty then none
    else
      let (oc, r3) :=
        match r2 with
        | c :: rest => if isUpperAZ c then ([c], rest) else ([], r2)
        | [] => ([], r2)
      let (dash, r4) :=
        match r3 with
        | c :: rest => if c = '-' then ([c], rest) else ([], r3)
        | [] => ([], r3)
      let tl := r4.takeWhile (fun c => Char.isDigit c || isUpperAZ c)
      let r5 := r4.dropWhile (fun c => Char.isDigit c || isUpperAZ c)
      some (us ++ ds ++ oc ++ dash ++ tl, r5)

/-- Scan for all matches of the grant-number pattern, left to right, resuming
after each match (JS global-flag semantics).  `fuel` bounds the recursion by
the input length. -/
def scanGrantNumsAux : Nat → List Char → List String
  | 0, _ => []
  | _ + 1, [] => []
  | fuel + 1, l@(_ :: rest) =>
    match matchGrantNumAt l with
    | some (m, r) => String.mk m :: scanGrantNumsAux fuel r
    | none => scanGrantNumsAux fuel rest

/-- `grantNumber.match(...) || []` of the Paper mappings. -/
def scanGrantNums (s : String) : List String :=
  scanGrantNumsAux s.toList.length s.toList

/-! ### Row-to-record mappings

The import path (`parseExcelFile`, part_007) first filters rows on
`row[0] !== undefined && row[0] !== null`, then maps; the editor path
(`processEditorFile`, part_003) first drops rows with no non-empty cell,
maps, and then filters on the record's primary text field. -/

/-- Grant mapping of `parseExcelFile` (part_007, lines 143-153); `idx` is the
position in the filtered row list. -/
def mkGrantRow (idx : Nat) (r : Row) : Grant :=
  { id := (idx : Int) + 1
    programType := cellStr (getCell r 0)
    grantType := cellStr (getCell r 1)
    icocApproval := cellStr (getCell r 2)
    totalAwards := cellNum (getCell r 3)
    awardValue := cellNum (getCell r 4)
    awardStatus := cellStrD (getCell r 5) "Active"
    notes := cellOptStr (getCell r 6)
    isNew := false }

/-- ActiveGrant mapping of `parseExcelFile` (part_007, lines 162-176).  The
change-tracking fields are not read from the sheet, so they start unset. -/
def mkActiveRow (r : Row) : ActiveGrant :=
  { grantNumber := cellStr (getCell r 0)
    programType := cellStr (getCell r 1)
    grantType := cellStr (getCell r 2)
    grantTitle := cellStr (getCell r 3)
    diseaseFocus := cellOptStr (getCell r 4)
    principalInvestigator := cellStr (getCell r 5)
    awardValue := cellNum (getCell r 6)
    icocApproval := cellOptStr (getCell r 7)
    awardStatus := cellStrD (getCell r 8) "Active"
    sortOrder := cellOptNum (getCell r 9)
    isNew := cellFlag (getCell r 10) false
    previousAwardValue := none
    previousAwardStatus := none
    showValueChange := cellFlag (getCell r 11) true
    showStatusChange := cellFlag (getCell r 12) true
    detailUrl := none }

/-- Paper mapping of `parseExcelFile` (part_007, lines 185-203). -/
def mkPaperRow (r : Row) : Paper :=
  { title := cellStr (getCell r 0)
    researchTopic := cellStr (getCell r 1)
    authors := cellStr (getCell r 2)
    publication := cellStr (getCell r 3)
    publishedOnline := cellOptStr (getCell r 4)
    grantNumber := cellStr (getCell r 5)
    grantNumbers := scanGrantNums (cellStr (getCell r 5))
    grantType := cellStr (getCell r 6)
    programType := cellStr (getCell r 7)
    grantTitle := cellStr (getCell r 8)
    awardStatus := cellStr (getCell r 9)
    manualUpdateDate := none }

/-- `row[0] !== undefined && row[0] !== null`, the row filter of every sheet
branch of `parseExcelFile` (part_007, lines 142/161/184). -/
def rowHasFirstCell (r : Row) : Bool := (getCell r 0).isSome

/-- Grants parsed from one import-path sheet (filter, then map with index). -/
def parseGrantsRows (rows : List Row) : List Grant :=
  ((rows.filter rowHasFirstCell).enum).map (fun p => mkGrantRow p.1 p.2)

/-- ActiveGrants parsed from one import-path sheet. -/
def parseActiveRows (rows : List Row) : List ActiveGrant :=
  (rows.filter rowHasFirstCell).map mkActiveRow

/-- Papers parsed from one import-path sheet. -/
def parsePapersRows (rows : List Row) : List Paper :=
  (rows.filter rowHasFirstCell).map mkPaperRow

/-- `row.some(cell => cell !== undefined && cell !== null && cell !== '')`,
the pre-filter of `processEditorFile` (part_003, line 159). -/
def rowNonEmpty (r : Row) : Bool :=
  r.any (fun c =>
    match c with
    | none => false
    | some (.s v) => v ≠ ""
    | some (.n _) => true)

/-- ActiveGrant mapping of `processEditorFile` (part_003, lines 184-199):
unlike the import path it reads `previousAwardValue`/`previousAwardStatus`
from columns 13/14 and defaults the display flags to `false`. -/
def mkActiveRowEditor (r : Row) : ActiveGrant :=
  { grantNumber := cellStr (getCell r 0)
    programType := cellStr (getCell r 1)
    grantType := cellStr (getCell r 2)
    grantTitle := cellStr (getCell r 3)
    diseaseFocus := cellOptStr (getCell r 4)
    principalInvestigator := cellStr (getCell r 5)
    awardValue := cellNum (getCell r 6)
    icocApproval := cellOptStr (getCell r 7)
    awardStatus := cellStrD (getCell r 8) "Active"
    sortOrder := cellOptNum (getCell r 9)
    isNew := cellFlag (getCell r 10) false
    previousAwardValue := cellPrevNum (getCell r 13)
    previousAwardStatus := cellPrevStr (getCell r 14)
    showValueChange := cellFlag (getCell r 11) false
    showStatusChange := cellFlag (getCell r 12) false
    detailUrl := none }

/-- Paper mapping of `processEditorFile` (part_003, lines 203-219), which
additionally reads `manualUpdateDate` from column 10. -/
def mkPaperRowEditor (r : Row) : Paper :=
  { mkPaperRow r with manualUpdateDate := cellOptStr (getCell r 10) }

/-- Grants of one editor sheet (part_003, lines 171-181): pre-filter rows,
map with index, then keep only records with a non-empty `grantType`. -/
def editorGrants (rows : List Row) : List Grant :=
  ((((rows.filter rowNonEmpty).enum).map (fun p => mkGrantRow p.1 p.2)).filter
    (fun g => g.grantType ≠ ""))

/-- ActiveGrants of one editor sheet (part_003, lines 184-200): kept only
with a non-empty `grantNumber`. -/
def editorActive (rows : List Row) : List ActiveGrant :=
  (((rows.filter rowNonEmpty).map mkActiveRowEditor).filter
    (fun ag => ag.grantNumber ≠ ""))

/-- Papers of one editor sheet (part_003, lines 203-220): kept only with a
non-empty `title`. -/
def editorPapers (rows : List Row) : List Paper :=
  (((rows.filter rowNonEmpty).map mkPaperRowEditor).filter
    (fun p => p.title ≠ ""))

/-! ## ActiveGrant merge

`importData` (part_007, lines 264-283) builds a JS `Map` keyed by
`grantNumber` from the existing records, then walks the imported records:
looks up the key, copies changed values into the change-tracking fields, and
`set`s the (possibly updated) imported record.  `Map` is embedded as an
insertion-ordered association list: `set` overwrites the first binding in
place, otherwise appends — observably identical to `Map.set`/`Map.values`
because a `Map` never holds duplicate keys. -/

/-- Association-list embedding of `Map<string, ActiveGrant>`. -/
abbrev AGMap := List (String × ActiveGrant)

/-- `Map.get`. -/
def mapGet : AGMap → String → Option ActiveGrant
  | [], _ => none
  | p :: t, k => if p.1 = k then some p.2 else mapGet t k

/-- `Map.set`: overwrite in place, else append. -/
def mapSet : AGMap → String → ActiveGrant → AGMap
  | [], k, v => [(k, v)]
  | p :: t, k, v => if p.1 = k then (k, v) :: t else p :: mapSet t k v

/-- `new Map(list.map(ag => [ag.grantNumber, ag]))`. -/
def mapOfList (l : List ActiveGrant) : AGMap :=
  l.foldl (fun m ag => mapSet m ag.grantNumber ag) []

/-- The change-detection step of `importData` (part_007, lines 270-279): when
a record with the same key exists, differing `awardValue`/`awardStatus` are
remembered in the `previous*` fields of the incoming record. -/
def mergeStep (e? : Option ActiveGrant) (ag : ActiveGrant) : ActiveGrant :=
  match e? with
  | none => ag
  | some e =>
    { ag with
      previousAwardValue :=
        if e.awardValue ≠ ag.awardValue then some e.awardValue
        else ag.previousAwardValue
      previousAwardStatus :=
        if e.awardStatus ≠ ag.awardStatus then some e.awardStatus
        else ag.previousAwardStatus }

/-- One loop iteration of the `imported.activeGrants.forEach` in `importData`
(part_007, lines 269-281). -/
def mergeFoldStep (m : AGMap) (ag : ActiveGrant) : AGMap :=
  mapSet m ag.grantNumber (mergeStep (mapGet m ag.grantNumber) ag)

/-- The merged `activeGrants` of `importData` (part_007, lines 266-283):
untouched when no records were imported, otherwise
`Array.from(existingMap.values())` after the forEach. -/
def mergeActiveGrants (existing imported : List ActiveGrant) : List ActiveGrant :=
  if imported.length > 0 then
    (imported.foldl mergeFoldStep (mapOfList existing)).map (fun p => p.2)
  else existing

/-- The editor merge of `handleApplyChanges` (part_003, lines 371-378):
plain last-write-wins by key, with no change detection. -/
def plainMergeActiveGrants (existing imported : List ActiveGrant) : List ActiveGrant :=
  if imported.length > 0 then
    (imported.foldl (fun m ag => mapSet m ag.grantNumber ag) (mapOfList existing)).map
      (fun p => p.2)
  else existing

/-- First record with the given grant number, for reading a merge result. -/
def findAG (l : List ActiveGrant) (k : String) : Option ActiveGrant :=
  l.find? (fun a => a.grantNumber = k)

/-! ## Import merge and summary (part_007, lines 258-301) -/

/-- `grants.reduce((sum, g) => sum + g.totalAwards, 0)`. -/
def sumTotalAwards (gs : List Grant) : Int :=
  gs.foldl (fun s g => s + g.totalAwards) 0

/-- `grants.reduce((sum, g) => sum + g.awardValue, 0)`. -/
def sumAwardValue (gs : List Grant) : Int :=
  gs.foldl (fun s g => s + g.awardValue) 0

/-- The merged `CIRMData` produced by `importData` when a data set already
exists (part_007, lines 285-297): grants/papers are appended, activeGrants
identity-merged, and the four touched summary fields are incremented
by the imported deltas (`activeProjects` and `activeGrants` are left as they were). -/
def importMerge (d : CIRMData) (imp : PartialCIRM) : CIRMData :=
  { d with
    grants := match imp.grants with
      | some gs => d.grants ++ gs
      | none => d.grants
    papers := match imp.papers with
      | some ps => d.papers ++ ps
      | none => d.papers
    activeGrants := match imp.activeGrants with
      | some ags => mergeActiveGrants d.activeGrants ags
      | none => d.activeGrants
    summary := { d.summary with
      totalGrants := d.summary.totalGrants +
        (match imp.grants with | some gs => (gs.length : Int) | none => 0)
      totalPapers := d.summary.totalPapers +
        (match imp.papers with | some ps => (ps.length : Int) | none => 0)
      totalProjects := d.summary.totalProjects +
        (match imp.grants with | some gs => sumTotalAwards gs | none => 0)
      totalAmount := d.summary.totalAmount +
        (match imp.grants with | some gs => sumAwardValue gs | none => 0) } }

/-- Outcome of one `importData` call (part_007, lines 258-301): the catch
branch maps to `rejected`; with no current data the parsed partial itself is
persisted (`saveData(imported as CIRMData)`), otherwise the merge result. -/
inductive ImportOutcome where
  | rejected : ImportOutcome
  | savedPartial : PartialCIRM → ImportOutcome
  | savedMerged : CIRMData → ImportOutcome
deriving DecidableEq, Repr

/-- The persisted-state effect of `importData` (part_007, lines 258-301).
The only validation is `!imported.grants && !imported.papers` (both keys
absent; an empty array is truthy and passes). -/
def importData (current : Option CIRMData) (imp : PartialCIRM) : ImportOutcome :=
  if imp.grants = none ∧ imp.papers = none then .rejected
  else
    match current with
    | some d => .savedMerged (importMerge d imp)
    | none => .savedPartial imp

/-- The editor apply of `handleApplyChanges` (part_003, lines 368-397):
edited arrays replace (not append to) the current ones, activeGrants are
plainly merged, and the whole summary is recomputed from the post-merge
grants/papers arrays, including `activeProjects`. -/
def editorApply (d : CIRMData) (e : PartialCIRM) : CIRMData :=
  let gs := match e.grants with | some l => l | none => d.grants
  let ps := match e.papers with | some l => l | none => d.papers
  { d with
    grants := gs
    papers := ps
    activeGrants := match e.activeGrants with
      | some ags => plainMergeActiveGrants d.activeGrants ags
      | none => d.activeGrants
    summary := { d.summary with
      totalGrants := (gs.length : Int)
      totalPapers := (ps.length : Int)
      totalProjects := sumTotalAwards gs
      totalAmount := sumAwardValue gs
      activeProjects := sumTotalAwards (gs.filter (fun g => g.awardStatus ≠ "Closed")) } }

/-! ## Change log (part_007, lines 53-64, 303-318, 333-354) -/

/-- The id `recordChange` assigns:
`` `${Date.now()}-${Math.random().toString(36).substr(2, 9)}` ``.
`now` is the millisecond clock reading and `rand` the 9-character random
suffix, both environment inputs of the call. -/
def mkId (now : Nat) (rand : String) : String :=
  toString now ++ "-" ++ rand

/-- `recordChange` (part_007, lines 53-64): fill in id and timestamp and
prepend the new entry. -/
def recordChange (prev : List DataChange) (now : Nat) (rand : String)
    (c : ChangeDesc) : List DataChange :=
  { id := mkId now rand
    type := c.type
    entityType := c.entityType
    entityId := c.entityId
    changes := c.changes
    timestamp := now
    snapshot := c.snapshot } :: prev

/-- The change descriptor `importData` records (part_007, lines 304-317):
aggregate imported counts only; no `snapshot` key is attached. -/
def importChangeDesc (imp : PartialCIRM) : ChangeDesc :=
  { type := "update"
    entityType := "grant"
    entityId := "bulk-import"
    changes := [("imported", ChangeVal.vnull,
      ChangeVal.vcounts
        (match imp.grants with | some gs => (gs.length : Int) | none => 0)
        (match imp.papers with | some ps => (ps.length : Int) | none => 0))]
    snapshot := none }

/-- The change-log effect of one `importData` call (part_007, lines 258-324):
nothing is recorded on the validation throw; otherwise exactly one entry. -/
def importDataChanges (chs : List DataChange) (imp : PartialCIRM)
    (now : Nat) (rand : String) : List DataChange :=
  if imp.grants = none ∧ imp.papers = none then chs
  else recordChange chs now rand (importChangeDesc imp)

/-- The change descriptor `updateData` records (part_007, lines 337-353):
old/new totals only; no `snapshot` key is attached. -/
def updateChangeDesc (current : Option CIRMData) (newData : CIRMData) : ChangeDesc :=
  { type := "update"
    entityType := "grant"
    entityId := "data-editor"
    changes := [("updated",
      ChangeVal.vcounts
        (match current with | some d => d.summary.totalGrants | none => 0)
        (match current with | some d => d.summary.totalPapers | none => 0),
      ChangeVal.vcounts newData.summary.totalGrants newData.summary.totalPapers)]
    snapshot := none }

/-- The change-log effect of one `updateData` call (part_007, lines 333-354):
always exactly one entry. -/
def updateDataChanges (chs : List DataChange) (current : Option CIRMData)
    (newData : CIRMData) (now : Nat) (rand : String) : List DataChange :=
  recordChange chs now rand (updateChangeDesc current newData)

/-! ## Rollback -/

/-- Modelled from the spec: replacing the persisted state with a snapshot
(§4.3: "replaces current persisted state with the snapshot"); the snapshot
holds the complete `grants`/`activeGrants`/`papers`/`summary` (§3). -/
def applySnapshot (d : CIRMData) (s : Snapshot) : CIRMData :=
  { d with
    grants := s.grants
    activeGrants := s.activeGrants
    papers := s.papers
    summary := s.summary }

/-- Modelled from the spec: `rollbackChange` is returned by `useCIRMData`
and called from `src/src/App.tsx` (line 157), but its implementation is not
among the source files (the hook version in part_007 predates it).  Per
§4.3: look up the entry by id; fail (`NotFound`) if absent or if it carries
no snapshot, leaving state unchanged; on success replace the persisted state
with the snapshot and keep the entry in the log.  Returns the success flag,
the persisted data and the change log after the call. -/
def rollbackChange (d : CIRMData) (chs : List DataChange) (changeId : String) :
    Bool × CIRMData × List DataChange :=
  match chs.find? (fun c => c.id = changeId) with
  | none => (false, d, chs)
  | some c =>
    match c.snapshot with
    | none => (false, d, chs)
    | some snap => (true, applySnapshot d snap, chs)

/-! ## Association-map lemmas -/

theorem mapGet_mapSet_self (m : AGMap) (k : String) (v : ActiveGrant) :
    mapGet (mapSet m k v) k = some v := by
  induction m with
  | nil => simp [mapSet, mapGet]
  | cons p t ih =>
    by_cases h : p.1 = k <;> simp [mapSet, mapGet, h, ih]

theorem mapGet_mapSet_ne (m : AGMap) (k k' : String) (v : ActiveGrant)
    (h : k' ≠ k) : mapGet (mapSet m k v) k' = mapGet m k' := by
  have h' : ¬ (k = k') := fun hk => h hk.symm
  induction m with
  | nil => simp [mapSet, mapGet, h']
  | cons p t ih =>
    by_cases hp : p.1 = k
    · simp [mapSet, mapGet, hp, h']
    · simp [mapSet, mapGet, hp, ih]

theorem foldl_merge_get_of_ne (l : List ActiveGrant) (m : AGMap) (k : String)
    (h : ∀ b ∈ l, b.grantNumber ≠ k) :
    mapGet (l.foldl mergeFoldStep m) k = mapGet m k := by
  induction l generalizing m with
  | nil => rfl
  | cons a t ih =>
    have ha : a.grantNumber ≠ k := h a (List.mem_cons_self a t)
    have ht : ∀ b ∈ t, b.grantNumber ≠ k := fun b hb => h b (List.mem_cons_of_mem a hb)
    calc mapGet ((a :: t).foldl mergeFoldStep m) k
        = mapGet (t.foldl mergeFoldStep (mergeFoldStep m a)) k := rfl
      _ = mapGet (mergeFoldStep m a) k := ih (mergeFoldStep m a) ht
      _ = mapGet m k := mapGet_mapSet_ne _ _ _ _ (fun hk => ha hk.symm)

theorem foldl_set_get_of_ne (l : List ActiveGrant) (m : AGMap) (k : String)
    (h : ∀ b ∈ l, b.grantNumber ≠ k) :
    mapGet (l.foldl (fun m ag => mapSet m ag.grantNumber ag) m) k = mapGet m k := by
  induction l generalizing m with
  | nil => rfl
  | cons a t ih =>
    have ha : a.grantNumber ≠ k := h a (List.mem_cons_self a t)
    have ht : ∀ b ∈ t, b.grantNumber ≠ k := fun b hb => h b (List.mem_cons_of_mem a hb)
    calc mapGet ((a :: t).foldl (fun m ag => mapSet m ag.grantNumber ag) m) k
        = mapGet (t.foldl (fun m ag => mapSet m ag.grantNumber ag)
            (mapSet m a.grantNumber a)) k := rfl
      _ = mapGet (mapSet m a.grantNumber a) k := ih _ ht
      _ = mapGet m k := mapGet_mapSet_ne _ _ _ _ (fun hk => ha hk.symm)

theorem foldl_set_get_mem (l : List ActiveGrant) (e : ActiveGrant) (m : AGMap)
    (hnd : (l.map (fun a => a.grantNumber)).Nodup) (hmem : e ∈ l) :
    mapGet (l.foldl (fun m ag => mapSet m ag.grantNumber ag) m) e.grantNumber
      = some e := by
  induction l generalizing m with
  | nil => cases hmem
  | cons a t ih =>
    rw [List.map_cons, List.nodup_cons] at hnd
    rcases List.mem_cons.mp hmem with rfl | hmem'
    · have ht : ∀ b ∈ t, b.grantNumber ≠ e.grantNumber := by
        intro b hb hbk
        exact hnd.1 (hbk ▸ List.mem_map_of_mem (fun a => a.grantNumber) hb)
      calc mapGet ((e :: t).foldl (fun m ag => mapSet m ag.grantNumber ag) m)
            e.grantNumber
          = mapGet (t.foldl (fun m ag => mapSet m ag.grantNumber ag)
              (mapSet m e.grantNumber e)) e.grantNumber := rfl
        _ = mapGet (mapSet m e.grantNumber e) e.grantNumber :=
            foldl_set_get_of_ne t _ _ ht
        _ = some e := mapGet_mapSet_self _ _ _
    · exact ih (mapSet m a.grantNumber a) hnd.2 hmem'

theorem mapGet_mapOfList (l : List ActiveGrant) (e : ActiveGrant)
    (hnd : (l.map (fun a => a.grantNumber)).Nodup) (hmem : e ∈ l) :
    mapGet (mapOfList l) e.grantNumber = some e :=
  foldl_set_get_mem l e [] hnd hmem

/-- Invariant of every map the merge builds: each binding's key is its
record's grant number. -/
def PairsInv (m : AGMap) : Prop := ∀ p ∈ m, p.1 = p.2.grantNumber

theorem pairsInv_nil : PairsInv [] := by intro p hp; cases hp

theorem pairsInv_mapSet {m : AGMap} (h : PairsInv m) {k : String}
    {v : ActiveGrant} (hkv : k = v.grantNumber) : PairsInv (mapSet m k v) := by
  induction m with
  | nil =>
    intro p hp
    rw [mapSet, List.mem_singleton] at hp
    rw [hp]; exact hkv
  | cons q t ih =>
    intro p hp
    rw [mapSet] at hp
    by_cases hq : q.1 = k
    · rw [if_pos hq, List.mem_cons] at hp
      cases hp with
      | inl hp' => rw [hp']; exact hkv
      | inr hp' => exact h p (List.mem_cons_of_mem q hp')
    · rw [if_neg hq, List.mem_cons] at hp
      cases hp with
      | inl hp' => rw [hp']; exact h q (List.mem_cons_self q t)
      | inr hp' => exact ih (fun r hr => h r (List.mem_cons_of_mem q hr)) p hp'

theorem mergeStep_grantNumber (e? : Option ActiveGrant) (ag : ActiveGrant) :
    (mergeStep e? ag).grantNumber = ag.grantNumber := by
  cases e? <;> rfl

theorem pairsInv_foldl_merge (l : List ActiveGrant) {m : AGMap}
    (h : PairsInv m) : PairsInv (l.foldl mergeFoldStep m) := by
  induction l generalizing m with
  | nil => exact h
  | cons a t ih =>
    exact ih (pairsInv_mapSet h (mergeStep_grantNumber _ a).symm)

theorem pairsInv_foldl_set (l : List ActiveGrant) {m : AGMap}
    (h : PairsInv m) :
    PairsInv (l.foldl (fun m ag => mapSet m ag.grantNumber ag) m) := by
  induction l generalizing m with
  | nil => exact h
  | cons a t ih => exact ih (pairsInv_mapSet h rfl)

theorem pairsInv_mapOfList (l : List ActiveGrant) : PairsInv (mapOfList l) :=
  pairsInv_foldl_set l pairsInv_nil

theorem findAG_map_snd (m : AGMap) (h : PairsInv m) (k : String) :
    findAG (m.map (fun p => p.2)) k = mapGet m k := by
  induction m with
  | nil => rfl
  | cons p t ih =>
    have hp : p.1 = p.2.grantNumber := h p (List.mem_cons_self p t)
    have ht : PairsInv t := fun q hq => h q (List.mem_cons_of_mem p hq)
    by_cases hk : p.2.grantNumber = k
    · simp [findAG, mapGet, List.find?, hk, hp ▸ hk]
    · have hk' : ¬ p.1 = k := by rw [hp]; exact hk
      simp only [List.map_cons, findAG, List.find?, mapGet, hk', if_neg hk']
      rw [decide_eq_false hk]
      exact ih ht

/-! Keys of the maps built by the merge. -/

theorem mem_keys_mapSet (m : AGMap) (k a : String) (v : ActiveGrant) :
    a ∈ (mapSet m k v).map (fun p => p.1) ↔
      a ∈ m.map (fun p => p.1) ∨ a = k := by
  induction m with
  | nil => simp [mapSet]
  | cons p t ih =>
    rw [mapSet]
    by_cases hp : p.1 = k
    · rw [if_pos hp]
      simp only [List.map_cons, List.mem_cons]
      constructor
      · intro hc
        cases hc with
        | inl h1 => exact Or.inr h1
        | inr h1 => exact Or.inl (Or.inr h1)
      · intro hc
        cases hc with
        | inl h1 =>
          cases h1 with
          | inl h2 => exact Or.inl (hp ▸ h2)
          | inr h2 => exact Or.inr h2
        | inr h1 => exact Or.inl h1
    · rw [if_neg hp]
      simp only [List.map_cons, List.mem_cons, ih]
      tauto

theorem nodupKeys_mapSet (m : AGMap) (k : String) (v : ActiveGrant)
    (h : (m.map (fun p => p.1)).Nodup) :
    ((mapSet m k v).map (fun p => p.1)).Nodup := by
  induction m with
  | nil => simp [mapSet]
  | cons p t ih =>
    rw [List.map_cons, List.nodup_cons] at h
    rw [mapSet]
    by_cases hp : p.1 = k
    · rw [if_pos hp, List.map_cons, List.nodup_cons]
      exact ⟨hp ▸ h.1, h.2⟩
    · rw [if_neg hp, List.map_cons, List.nodup_cons]
      refine ⟨fun hmem => ?_, ih h.2⟩
      cases (mem_keys_mapSet t k p.1 v).mp hmem with
      | inl hmem' => exact h.1 hmem'
      | inr heq => exact hp heq

theorem nodupKeys_foldl_merge (l : List ActiveGrant) {m : AGMap}
    (h : (m.map (fun p => p.1)).Nodup) :
    ((l.foldl mergeFoldStep m).map (fun p => p.1)).Nodup := by
  induction l generalizing m with
  | nil => exact h
  | cons a t ih => exact ih (nodupKeys_mapSet m _ _ h)

theorem nodupKeys_foldl_set (l : List ActiveGrant) {m : AGMap}
    (h : (m.map (fun p => p.1)).Nodup) :
    ((l.foldl (fun m ag => mapSet m ag.grantNumber ag) m).map
      (fun p => p.1)).Nodup := by
  induction l generalizing m with
  | nil => exact h
  | cons a t ih => exact ih (nodupKeys_mapSet m _ _ h)

theorem nodupKeys_mapOfList (l : List ActiveGrant) :
    ((mapOfList l).map (fun p => p.1)).Nodup :=
  nodupKeys_foldl_set l List.nodup_nil

theorem map_grantNumber_of_pairsInv (m : AGMap) (h : PairsInv m) :
    (m.map (fun p => p.2)).map (fun a => a.grantNumber) =
      m.map (fun p => p.1) := by
  induction m with
  | nil => rfl
  | cons p t ih =>
    have hp : p.1 = p.2.grantNumber := h p (List.mem_cons_self p t)
    have ht : PairsInv t := fun q hq => h q (List.mem_cons_of_mem p hq)
    simp [hp, ih ht]

/-- Shared merge-reading lemma: if the existing records have pairwise
distinct grant numbers, `e` is the existing record with `ag`'s key, and `ag`
is the only imported record with that key, then the merge stores exactly
`mergeStep (some e) ag` under that key. -/
theorem mergeActiveGrants_lookup (existing pre post : List ActiveGrant)
    (ag e : ActiveGrant)
    (hnd : (existing.map (fun a => a.grantNumber)).Nodup)
    (hmem : e ∈ existing) (hkey : e.grantNumber = ag.grantNumber)
    (hpre : ∀ b ∈ pre, b.grantNumber ≠ ag.grantNumber)
    (hpost : ∀ b ∈ post, b.grantNumber ≠ ag.grantNumber) :
    findAG (mergeActiveGrants existing (pre ++ ag :: post)) ag.grantNumber
      = some (mergeStep (some e) ag) := by
  have hlen : (pre ++ ag :: post).length > 0 := by simp
  rw [mergeActiveGrants, if_pos hlen]
  rw [findAG_map_snd _ (pairsInv_foldl_merge _ (pairsInv_mapOfList existing))]
  rw [List.foldl_append]
  have hstep :
      (ag :: post).foldl mergeFoldStep (pre.foldl mergeFoldStep (mapOfList existing))
        = post.foldl mergeFoldStep
            (mergeFoldStep (pre.foldl mergeFoldStep (mapOfList existing)) ag) := rfl
  rw [hstep]
  rw [foldl_merge_get_of_ne post _ _ hpost]
  rw [mergeFoldStep, mapGet_mapSet_self]
  rw [foldl_merge_get_of_ne pre _ _ hpre]
  rw [← hkey, mapGet_mapOfList existing e hnd hmem]

/-! ## Concrete example data used by counterexamples and witnesses -/

/-- An existing active grant. -/
def agOld : ActiveGrant :=
  { grantNumber := "DISC1-001"
    programType := "Discovery"
    grantType := "DISC 1"
    grantTitle := "Example project"
    diseaseFocus := none
    principalInvestigator := "PI A"
    awardValue := 100
    icocApproval := none
    awardStatus := "Active"
    sortOrder := none
    isNew := false
    previousAwardValue := none
    previousAwardStatus := none
    showValueChange := true
    showStatusChange := true
    detailUrl := none }

/-- A re-import of `agOld` with a new value and a Closed status. -/
def agNew : ActiveGrant := { agOld with awardValue := 150, awardStatus := "Closed" }

/-- A re-import of `agOld` with the same value but a non-Closed status
change. -/
def agSusp : ActiveGrant := { agOld with awardStatus := "Suspended" }

/-- An all-zero summary, consistent with empty record arrays. -/
def summaryZero : DataSummary :=
  { totalGrants := 0, totalProjects := 0, totalAmount := 0
    activeProjects := 0, totalPapers := 0, activeGrants := 0 }

/-- Empty visualization payload. -/
def vizEmpty : VisualizationData :=
  { updateDate := "", programGrantPapers := [], grantCooccurrence := []
    topGrantsByPaperCount := [] }

/-- A consistent data set with no records. -/
def dataEmpty : CIRMData :=
  { summary := summaryZero
    updateDate := "2025-01-01"
    grants := []
    activeGrants := []
    papers := []
    programStats := []
    yearlyStats := []
    visualization := vizEmpty }

/-- One non-Closed grant row worth two awards. -/
def grantActive1 : Grant :=
  { id := 1, programType := "Discovery", grantType := "DISC 1"
    icocApproval := "", totalAwards := 2, awardValue := 1000
    awardStatus := "Active", notes := none, isNew := false }

/-- A grants-only partial, as a spreadsheet with a single grants sheet
produces. -/
def impGrantOnly : PartialCIRM := { grants := some [grantActive1] }

/-- A papers-only partial. -/
def impPapersOnly : PartialCIRM := { papers := some [] }

/-- A change descriptor without snapshot. -/
def descEx : ChangeDesc :=
  { type := "add", entityType := "grant", entityId := "x", changes := []
    snapshot := none }

/-- A second, different change descriptor. -/
def descEx2 : ChangeDesc :=
  { type := "add", entityType := "grant", entityId := "y", changes := []
    snapshot := none }

/-- A full snapshot for the rollback example. -/
def snapEx : Snapshot :=
  { grants := [grantActive1], activeGrants := [agOld], papers := []
    summary := summaryZero }

/-- A recorded change without snapshot. -/
def changeNoSnap : DataChange :=
  { id := "1-aaaaaaaaa", type := "update", entityType := "grant"
    entityId := "bulk-import", changes := [], timestamp := 1, snapshot := none }

/-- A recorded change carrying a full snapshot. -/
def changeSnap : DataChange :=
  { changeNoSnap with id := "2-bbbbbbbbb", snapshot := some snapEx }

/-! ## Claims -/

/-- C1, counterexample: the import path classifies the sheet name
"Active Grants" — which contains both "grant" and "active" — as a Grant
sheet, because `parseExcelFile` tests `grant`/`资助` before `active`; the
claim says such a name is an ActiveGrant sheet and never a Grant sheet. -/
theorem claim1_import_both_is_grants_counterexample :
    classifyImportSheet "Active Grants" = SheetType.grants ∧
    SheetType.grants ≠ SheetType.activeGrants := by decide

/-- C1, amended: a sheet name containing both "grant" and "active"
(case-insensitive) is classified as a Grant sheet by the import path
(`parseExcelFile`, which tests "grant"/"资助" first) and as an ActiveGrant
sheet by the editor path (`detectSheetType`, which tests "active" first). -/
theorem claim1_both_grant_and_active (name : String)
    (hg : strContainsSub (strLower name) "grant" = true)
    (ha : strContainsSub (strLower name) "active" = true) :
    classifyImportSheet name = SheetType.grants ∧
    detectSheetType name = SheetType.activeGrants := by
  constructor
  · simp [classifyImportSheet, hg]
  · simp [detectSheetType, ha]

/-- C1, witness for the amended theorem at the sheet name "Active Grants". -/
theorem claim1_both_grant_and_active_witness :
    strContainsSub (strLower "Active Grants") "grant" = true ∧
    strContainsSub (strLower "Active Grants") "active" = true ∧
    (classifyImportSheet "Active Grants" = SheetType.grants ∧
      detectSheetType "Active Grants" = SheetType.activeGrants) :=
  ⟨by decide, by decide,
    claim1_both_grant_and_active "Active Grants" (by decide) (by decide)⟩

/-- C2: merging an imported ActiveGrant whose grant number already exists
stores the existing award value in `previousAwardValue` exactly when the
values differ; when they are equal the merge does not set it, so it stays
unset whenever the incoming record (as every spreadsheet-parsed record)
carries none. -/
theorem claim2_previous_award_value (existing pre post : List ActiveGrant)
    (ag e : ActiveGrant)
    (hnd : (existing.map (fun a => a.grantNumber)).Nodup)
    (hmem : e ∈ existing) (hkey : e.grantNumber = ag.grantNumber)
    (hpre : ∀ b ∈ pre, b.grantNumber ≠ ag.grantNumber)
    (hpost : ∀ b ∈ post, b.grantNumber ≠ ag.grantNumber) :
    (e.awardValue ≠ ag.awardValue →
      (findAG (mergeActiveGrants existing (pre ++ ag :: post)) ag.grantNumber).map
        (fun a => a.previousAwardValue) = some (some e.awardValue))
    ∧ (e.awardValue = ag.awardValue → ag.previousAwardValue = none →
      (findAG (mergeActiveGrants existing (pre ++ ag :: post)) ag.grantNumber).map
        (fun a => a.previousAwardValue) = some none) := by
  have h := mergeActiveGrants_lookup existing pre post ag e hnd hmem hkey hpre hpost
  constructor
  · intro hne
    rw [h]
    simp [mergeStep, hne]
  · intro heq hnone
    rw [h]
    simp [mergeStep, heq, hnone]

/-- C2, witness: re-importing `agOld` as `agNew` (award value 100 changed to
150) records `previousAwardValue = 100`. -/
theorem claim2_previous_award_value_witness :
    agOld.awardValue ≠ agNew.awardValue ∧
    (findAG (mergeActiveGrants [agOld] ([] ++ agNew :: [])) agNew.grantNumber).map
      (fun a => a.previousAwardValue) = some (some agOld.awardValue) :=
  ⟨by decide,
    (claim2_previous_award_value [agOld] [] [] agNew agOld (by decide) (by decide)
      (by decide) (by intro b hb; cases hb) (by intro b hb; cases hb)).1 (by decide)⟩

/-- C3, counterexample: the merge sets `previousAwardStatus` on any status
change, not only on transitions to "Closed": re-importing `agOld` (status
"Active") as `agSusp` (status "Suspended") sets
`previousAwardStatus = "Active"` although the incoming status is not
"Closed", where the claim says it must not be set. -/
theorem claim3_status_change_counterexample :
    (findAG (mergeActiveGrants [agOld] [agSusp]) "DISC1-001").map
      (fun a => a.previousAwardStatus) = some (some "Active") ∧
    agSusp.awardStatus ≠ "Closed" := by decide

/-- C3, amended: `previousAwardStatus` is set to the existing status exactly
when the two statuses differ — including changes that do not end in "Closed"
— and on equal statuses (such as Closed to Closed) the merge does not set
it, so it stays unset whenever the incoming record carries none. -/
theorem claim3_previous_award_status (existing pre post : List ActiveGrant)
    (ag e : ActiveGrant)
    (hnd : (existing.map (fun a => a.grantNumber)).Nodup)
    (hmem : e ∈ existing) (hkey : e.grantNumber = ag.grantNumber)
    (hpre : ∀ b ∈ pre, b.grantNumber ≠ ag.grantNumber)
    (hpost : ∀ b ∈ post, b.grantNumber ≠ ag.grantNumber) :
    (e.awardStatus ≠ ag.awardStatus →
      (findAG (mergeActiveGrants existing (pre ++ ag :: post)) ag.grantNumber).map
        (fun a => a.previousAwardStatus) = some (some e.awardStatus))
    ∧ (e.awardStatus = ag.awardStatus → ag.previousAwardStatus = none →
      (findAG (mergeActiveGrants existing (pre ++ ag :: post)) ag.grantNumber).map
        (fun a => a.previousAwardStatus) = some none) := by
  have h := mergeActiveGrants_lookup existing pre post ag e hnd hmem hkey hpre hpost
  constructor
  · intro hne
    rw [h]
    simp [mergeStep, hne]
  · intro heq hnone
    rw [h]
    simp [mergeStep, heq, hnone]

/-- C3, witness for the amended theorem: the "Active" to "Suspended"
re-import records `previousAwardStatus = "Active"`. -/
theorem claim3_previous_award_status_witness :
    agOld.awardStatus ≠ agSusp.awardStatus ∧
    (findAG (mergeActiveGrants [agOld] ([] ++ agSusp :: [])) agSusp.grantNumber).map
      (fun a => a.previousAwardStatus) = some (some agOld.awardStatus) :=
  ⟨by decide,
    (claim3_previous_award_status [agOld] [] [] agSusp agOld (by decide) (by decide)
      (by decide) (by intro b hb; cases hb) (by intro b hb; cases hb)).1 (by decide)⟩

/-- C4, counterexample: `importData` adjusts the summary incrementally and
never touches `activeProjects`, so after importing one non-Closed grant
(worth two awards) into a consistent empty data set the summary no longer
satisfies the stated `activeProjects` formula over the post-merge grants
array (the pre-merge state did satisfy it). -/
theorem claim4_summary_counterexample :
    dataEmpty.summary.activeProjects =
      sumTotalAwards (dataEmpty.grants.filter (fun g => g.awardStatus ≠ "Closed")) ∧
    (importMerge dataEmpty impGrantOnly).summary.activeProjects ≠
      sumTotalAwards ((importMerge dataEmpty impGrantOnly).grants.filter
        (fun g => g.awardStatus ≠ "Closed")) := by decide

/-- C4, amended: only the editor apply path (`handleApplyChanges`)
recomputes the summary wholesale from the post-merge arrays — all five
stated formulas hold of its result; the import path (`importData`) instead
adds the imported deltas to four summary fields and leaves `activeProjects`
unchanged. -/
theorem claim4_summary_recomputation (d : CIRMData) (e : PartialCIRM)
    (d2 : CIRMData) (i2 : PartialCIRM) :
    ((editorApply d e).summary.totalGrants = ((editorApply d e).grants.length : Int) ∧
     (editorApply d e).summary.totalPapers = ((editorApply d e).papers.length : Int) ∧
     (editorApply d e).summary.totalProjects = sumTotalAwards (editorApply d e).grants ∧
     (editorApply d e).summary.totalAmount = sumAwardValue (editorApply d e).grants ∧
     (editorApply d e).summary.activeProjects =
       sumTotalAwards ((editorApply d e).grants.filter
         (fun g => g.awardStatus ≠ "Closed"))) ∧
    (importMerge d2 i2).summary.activeProjects = d2.summary.activeProjects :=
  ⟨⟨rfl, rfl, rfl, rfl, rfl⟩, rfl⟩

/-- C5, counterexample: with no existing data set, a grants-only partial
upload (exactly what a spreadsheet with a single grants sheet yields) is
not rejected — the incomplete partial itself, lacking even a summary, is
persisted as the new state. -/
theorem claim5_first_load_counterexample :
    importData none impGrantOnly = ImportOutcome.savedPartial impGrantOnly ∧
    impGrantOnly.summary = none ∧
    impGrantOnly.papers = none := by decide

/-- C5, amended: on first load the import is rejected only when the partial
has neither a grants key nor a papers key; in every other case it succeeds
and the partial is persisted as-is, with no completeness check. -/
theorem claim5_first_load_no_completeness_check (p : PartialCIRM) :
    (importData none p = ImportOutcome.rejected ↔
      p.grants = none ∧ p.papers = none) ∧
    (p.grants ≠ none ∨ p.papers ≠ none →
      importData none p = ImportOutcome.savedPartial p) := by
  constructor
  · by_cases hc : p.grants = none ∧ p.papers = none
    · simp [importData, hc]
    · simp [importData, hc]
  · intro hp
    have hc : ¬ (p.grants = none ∧ p.papers = none) := by
      intro hcon
      cases hp with
      | inl h1 => exact h1 hcon.1
      | inr h1 => exact h1 hcon.2
    simp [importData, hc]

/-- C5, witness for the amended theorem at the grants-only partial. -/
theorem claim5_first_load_no_completeness_check_witness :
    (impGrantOnly.grants ≠ none ∨ impGrantOnly.papers ≠ none) ∧
    importData none impGrantOnly = ImportOutcome.savedPartial impGrantOnly :=
  ⟨Or.inl (by decide),
    (claim5_first_load_no_completeness_check impGrantOnly).2 (Or.inl (by decide))⟩

/-- C6: `rollbackChange` fails and leaves the persisted state and the change
log unchanged when no entry has the requested id or when the entry carries
no snapshot; on success it replaces the persisted state with the snapshot
and does not remove the entry from the log. -/
theorem claim6_rollback (d : CIRMData) (chs : List DataChange) (cid : String) :
    (chs.find? (fun ch => ch.id = cid) = none →
      rollbackChange d chs cid = (false, d, chs)) ∧
    (∀ c, chs.find? (fun ch => ch.id = cid) = some c → c.snapshot = none →
      rollbackChange d chs cid = (false, d, chs)) ∧
    (∀ c snap, chs.find? (fun ch => ch.id = cid) = some c →
      c.snapshot = some snap →
      rollbackChange d chs cid = (true, applySnapshot d snap, chs)) := by
  refine ⟨fun h => ?_, fun c hc hs => ?_, fun c snap hc hs => ?_⟩
  · simp [rollbackChange, h]
  · simp [rollbackChange, hc, hs]
  · simp [rollbackChange, hc, hs]

/-- C6, witness: rolling back the snapshot-carrying entry succeeds, restores
the snapshot and keeps both log entries; the id lookup is discharged
concretely. -/
theorem claim6_rollback_witness :
    [changeSnap, changeNoSnap].find? (fun ch => ch.id = "2-bbbbbbbbb") =
      some changeSnap ∧
    rollbackChange dataEmpty [changeSnap, changeNoSnap] "2-bbbbbbbbb" =
      (true, applySnapshot dataEmpty snapEx, [changeSnap, changeNoSnap]) :=
  ⟨by decide,
    (claim6_rollback dataEmpty [changeSnap, changeNoSnap] "2-bbbbbbbbb").2.2
      changeSnap snapEx (by decide) (by decide)⟩

/-- C7: evaluating the recorded entries at a failing input — both the
bulk import and the data-editor apply record exactly one change entry, and that
entry carries no snapshot at all (only aggregate counts), contrary to the
claim that a complete pre-mutation snapshot is attached. -/
theorem claim7_no_snapshot_recorded :
    (importDataChanges [] impGrantOnly 1000 "aaaaaaaaa").length = 1 ∧
    (∀ c ∈ importDataChanges [] impGrantOnly 1000 "aaaaaaaaa",
      c.snapshot = none) ∧
    (updateDataChanges [] (some dataEmpty) dataEmpty 1001 "bbbbbbbbb").length = 1 ∧
    (∀ c ∈ updateDataChanges [] (some dataEmpty) dataEmpty 1001 "bbbbbbbbb",
      c.snapshot = none) := by decide

/-- C8, counterexample: the import parser keeps a grants row whose primary
text field (the grant type, column 1) is blank, as long as the first cell is
present — the row is not discarded as the claim states. -/
theorem claim8_blank_primary_counterexample :
    (parseGrantsRows [[some (Cell.s "Discovery")]]).length = 1 ∧
    (∀ g ∈ parseGrantsRows [[some (Cell.s "Discovery")]], g.grantType = "") := by
  decide

/-- C8, amended: only the editor parser discards records with a blank
primary text field (grant type, grant number, title respectively);
the other parser instead keeps exactly the rows whose first cell is neither
undefined nor null, regardless of the primary text field. -/
theorem claim8_primary_field_filter (rows : List Row) :
    ((editorGrants rows).all (fun g => g.grantType ≠ "")) = true ∧
    ((editorActive rows).all (fun ag => ag.grantNumber ≠ "")) = true ∧
    ((editorPapers rows).all (fun p => p.title ≠ "")) = true ∧
    (parseGrantsRows rows).length = (rows.filter rowHasFirstCell).length ∧
    (parseActiveRows rows).length = (rows.filter rowHasFirstCell).length ∧
    (parsePapersRows rows).length = (rows.filter rowHasFirstCell).length := by
  refine ⟨?_, ?_, ?_, ?_, ?_, ?_⟩
  · rw [List.all_eq_true]
    intro g hg
    exact (List.mem_filter.mp hg).2
  · rw [List.all_eq_true]
    intro ag hag
    exact (List.mem_filter.mp hag).2
  · rw [List.all_eq_true]
    intro p hp
    exact (List.mem_filter.mp hp).2
  · simp [parseGrantsRows]
  · simp [parseActiveRows]
  · simp [parsePapersRows]

/-- C9, counterexample: the id is the clock reading plus a random suffix, so
two different changes recorded in the same millisecond with the same random
output get the same id — uniqueness is not guaranteed by the code. -/
theorem claim9_same_id_counterexample :
    ¬ (((recordChange (recordChange [] 1000 "aaaaaaaaa" descEx) 1000 "aaaaaaaaa"
        descEx2).map (fun c => c.id)).Nodup) := by decide

/-- Strings with a common front part and different tails differ (helper for
the id distinctness of C9). -/
theorem string_append_left_cancel (a r r' : String) (h : a ++ r = a ++ r') :
    r = r' := by
  have hd : (a ++ r).data = (a ++ r').data := congrArg String.data h
  rw [String.data_append, String.data_append] at hd
  exact String.ext (List.append_cancel_left hd)

/-- C9, amended: `recordChange` prepends one new entry carrying the id
composed of the millisecond reading and the random suffix plus the current
timestamp, preserving all previous entries unmodified (most-recent-first
order); ids of two same-millisecond records are distinct exactly when their
random suffixes are — not unconditionally. -/
theorem claim9_record_change (st : List DataChange) (now : Nat) (rand : String)
    (c : ChangeDesc) (r r' : String) (hr : r ≠ r') :
    (recordChange st now rand c).length = st.length + 1 ∧
    (recordChange st now rand c).tail = st ∧
    ((recordChange st now rand c).head?.map (fun e => e.id)) =
      some (mkId now rand) ∧
    ((recordChange st now rand c).head?.map (fun e => e.timestamp)) = some now ∧
    mkId now r ≠ mkId now r' := by
  refine ⟨rfl, rfl, rfl, rfl, fun h => hr ?_⟩
  exact string_append_left_cancel (toString now ++ "-") r r' h

/-- C9, witness at concrete inputs, with distinct random suffixes. -/
theorem claim9_record_change_witness :
    ("abcdefghi" : String) ≠ "abcdefghj" ∧
    ((recordChange [] 5 "abcdefghi" descEx).length = 0 + 1 ∧
     (recordChange [] 5 "abcdefghi" descEx).tail = [] ∧
     ((recordChange [] 5 "abcdefghi" descEx).head?.map (fun e => e.id)) =
       some (mkId 5 "abcdefghi") ∧
     ((recordChange [] 5 "abcdefghi" descEx).head?.map (fun e => e.timestamp)) =
       some 5 ∧
     mkId 5 "abcdefghi" ≠ mkId 5 "abcdefghj") :=
  ⟨by decide, claim9_record_change [] 5 "abcdefghi" descEx "abcdefghi" "abcdefghj"
    (by decide)⟩

/-- C10: merging imported ActiveGrants into an existing array with pairwise
distinct grant numbers yields an array with pairwise distinct grant numbers
(for any imported list), and on a key collision the stored record
is the incoming one after change detection against the existing record —
last write wins. -/
theorem claim10_merge_unique_last_write (existing pre post : List ActiveGrant)
    (ag e : ActiveGrant)
    (hnd : (existing.map (fun a => a.grantNumber)).Nodup)
    (hmem : e ∈ existing) (hkey : e.grantNumber = ag.grantNumber)
    (hpre : ∀ b ∈ pre, b.grantNumber ≠ ag.grantNumber)
    (hpost : ∀ b ∈ post, b.grantNumber ≠ ag.grantNumber) :
    (∀ imported : List ActiveGrant,
      ((mergeActiveGrants existing imported).map (fun a => a.grantNumber)).Nodup) ∧
    findAG (mergeActiveGrants existing (pre ++ ag :: post)) ag.grantNumber =
      some (mergeStep (some e) ag) := by
  constructor
  · intro imported
    rw [mergeActiveGrants]
    by_cases hlen : imported.length > 0
    · rw [if_pos hlen]
      rw [map_grantNumber_of_pairsInv _
        (pairsInv_foldl_merge _ (pairsInv_mapOfList existing))]
      exact nodupKeys_foldl_merge _ (nodupKeys_mapOfList existing)
    · rw [if_neg hlen]
      exact hnd
  · exact mergeActiveGrants_lookup existing pre post ag e hnd hmem hkey hpre hpost

/-- C10, witness: merging the singleton import `agNew` over `[agOld]`. -/
theorem claim10_merge_unique_last_write_witness :
    (([agOld].map (fun a => a.grantNumber)).Nodup ∧ agOld ∈ [agOld] ∧
      agOld.grantNumber = agNew.grantNumber) ∧
    (∀ imported : List ActiveGrant,
      ((mergeActiveGrants [agOld] imported).map (fun a => a.grantNumber)).Nodup) ∧
    findAG (mergeActiveGrants [agOld] ([] ++ agNew :: [])) agNew.grantNumber =
      some (mergeStep (some agOld) agNew) :=
  ⟨⟨by decide, by decide, by decide⟩,
    claim10_merge_unique_last_write [agOld] [] [] agNew agOld (by decide)
      (by decide) (by decide) (by intro b hb; cases hb) (by intro b hb; cases hb)⟩

end CIRM
